import Mathlib

/-!
Verification development for the `data_harvest_reader` package
(`src/data_harvest_reader/data_reader.py`).

The Python module is shallowly embedded below:
* tables (`polars.DataFrame`) become `DataFrame` — a column list plus a list
  of rows; cell values are modelled as integers, since no claim depends on
  any other cell type;
* fallible Python code (raising exceptions) becomes `Except PyErr`;
* the filesystem, the zip-parsing capability (`zipfile`) and the per-format
  decoders (`polars` readers) are external collaborators, and are passed in
  as explicit parameters, mirroring the spec which treats them as pluggable
  capabilities.
-/

/-- The exception taxonomy.  `valueError`, `keyError` and
`columnNotFoundError` model the corresponding built-in / polars exceptions;
`unsupportedFormatError` and `filterConfigurationError` are the two classes
defined in `data_reader.py`.  `unsupportedSourceError` is named by the spec
but is defined nowhere in the code; it is included so that statements can
talk about it. -/
inductive PyErr where
  | valueError : String → PyErr
  | keyError : String → PyErr
  | columnNotFoundError : String → PyErr
  | unsupportedFormatError : String → PyErr
  | filterConfigurationError : String → PyErr
  | unsupportedSourceError : String → PyErr
  deriving DecidableEq, Repr

/-- `str(e)` on an exception, as interpolated into wrapper messages.
`str(KeyError(k))` is the repr of the key, hence the quotes. -/
def PyErr.msg : PyErr → String
  | .valueError m => m
  | .keyError k => "\x27" ++ k ++ "\x27"
  | .columnNotFoundError c => c
  | .unsupportedFormatError m => m
  | .filterConfigurationError m => m
  | .unsupportedSourceError m => m

/-- An in-memory table (`polars.DataFrame`): named columns and rows of
cells; row `r`'s value for column `cols[i]` is `r[i]`. -/
structure DataFrame where
  cols : List String
  rows : List (List Int)
  deriving DecidableEq, Repr

/-- Raw file content.  Only ever passed opaquely to decoders. -/
abbrev Bytes := List Nat

/-- A per-format decoder (`_read_csv`, `_read_json`, ...): an external
capability taking file content to a table or an exception. -/
abbrev DecodeCap := Bytes → Except PyErr DataFrame

/-- The archive-opening capability (`zipfile.ZipFile` + `namelist` +
`open`): bytes of an archive to its list of (entry name, entry content),
or an exception (`BadZipFile`) for invalid archives. -/
abbrev ZipParse := Bytes → Except PyErr (List (String × Bytes))

/-- The filesystem, as consulted by `os.path.isdir`, `os.path.isfile`,
`os.listdir` and by opening a file path. -/
structure FS where
  isDir : String → Bool
  isFile : String → Bool
  listDir : String → List String
  fileBytes : String → Bytes

/-- The `source` argument of `read_data`: a string path, raw bytes, or any
other Python object. -/
inductive Source where
  | str : String → Source
  | bytes : Bytes → Source
  | other : Source
  deriving DecidableEq, Repr

/-! ### Filename helpers (`os.path.splitext`, `os.path.basename`) -/

/-- The basename: everything after the last path separator. -/
def afterLastSep (cs : List Char) : List Char :=
  (cs.reverse.takeWhile (fun c => c != '/')).reverse

/-- The suffix of a basename starting at its last dot (inclusive), or `[]`
when there is no dot.  Callers first strip the basename's leading dots,
mirroring `os.path.splitext`, for which a dot at the very start of the
basename never begins an extension. -/
def lastDotSuffix (core : List Char) : List Char :=
  if core.contains '.' then
    '.' :: (core.reverse.takeWhile (fun c => c != '.')).reverse
  else []

/-- `os.path.splitext(name)[1]`: the extension, leading dot included. -/
def extOf (name : String) : String :=
  ⟨lastDotSuffix ((afterLastSep name.data).dropWhile (fun c => c == '.'))⟩

/-- `os.path.splitext(os.path.basename(name))[0]`: the file stem. -/
def stemOf (name : String) : String :=
  let base := afterLastSep name.data
  let ext := lastDotSuffix (base.dropWhile (fun c => c == '.'))
  ⟨base.take (base.length - ext.length)⟩

/-! ### Merge-mode suffix stripping

`_read_files_parallel` normalizes a stem with
`re.sub(r'_(\d+)|_(\d{4}-\d{2}-\d{2} \d{2}:\d{2}:\d{2})|_(\d{14})', '', base_name)`.
Python alternation is leftmost, first-alternative-first: every alternative
starts with `_` followed by a digit, and the first alternative `_(\d+)`
matches whenever `_` is followed by any digit, with a greedy maximal digit
run.  Hence the second and third alternatives can never fire, and the
substitution deletes every occurrence of `_` followed by a maximal nonempty
digit run, scanning left to right and resuming after each deletion.  The
scanner below implements exactly that; the flag records whether we are
still inside the digit run of a match being deleted. -/

def headIsDigit : List Char → Bool
  | [] => false
  | c :: _ => c.isDigit

def stripAux : Bool → List Char → List Char
  | _, [] => []
  | inGroup, c :: rest =>
    if inGroup && c.isDigit then stripAux true rest
    else if c == '_' && headIsDigit rest then stripAux true rest
    else c :: stripAux false rest

/-- The `join_similar` stem normalization (the `re.sub` at line 322). -/
def stripSuffixGroups (s : String) : String := ⟨stripAux false s.data⟩

/-! ### The Filter Engine (`apply_filters`, `_build_filter_condition`) -/

/-- The `values` field of a filter rule: a scalar or a list
(`isinstance(values, list)`). -/
inductive Values where
  | scalar : Int → Values
  | list : List Int → Values
  deriving DecidableEq, Repr

def Values.isList : Values → Bool
  | .scalar _ => false
  | .list _ => true

/-- One declarative filter rule.  `operator` is optional; the code reads it
with `filter_rule.get('operator', 'and')`. -/
structure FilterRule where
  column : String
  operation : String
  values : Values
  operator : Option String
  deriving DecidableEq, Repr

/-- `self.__available_operations`, in the tuple's order. -/
def availableOperations : List String :=
  ["notin", "in", "==", ">", ">=", "<", "<=", "!="]

/-- The message built at lines 197-198 for an unrecognized operation. -/
def badOperationMsg (operation : String) : String :=
  operation ++ " is not allowed, the only allowed operations are \x27"
    ++ String.intercalate ", " availableOperations ++ "\x27"

/-- The message built at lines 204-205 for list values on a
non-membership operation. -/
def listValuesMsg (dfName : String) : String :=
  "For list values, use \x27notin\x27 or \x27in\x27 operation. DataFrame name: "
    ++ dfName

/-- The wrapper message of the catch-all at line 221. -/
def filterWrapMsg (dfName : String) (inner : String) : String :=
  "Error in filter configuration for " ++ dfName ++ ": " ++ inner

/-- `df[column]`: the column's index in the schema, or polars'
`ColumnNotFoundError` when the column does not exist. -/
def colIndexE (df : DataFrame) (c : String) : Except PyErr Nat :=
  match df.cols.findIdx? (fun x => x == c) with
  | some i => .ok i
  | none => .error (.columnNotFoundError c)

/-- A comparison branch of `_build_filter_condition` uses `values` as a
scalar.  `apply_filters` validates that non-membership operations never see
a list, so the error branch is unreachable from it. -/
def asScalar : Values → Except PyErr Int
  | .scalar v => .ok v
  | .list _ => .error (.valueError "list value in scalar comparison")

/-- `values if isinstance(values, list) else [values]` (lines 248 and 251):
the coercion used by the membership branches. -/
def asList : Values → List Int
  | .scalar v => [v]
  | .list vs => vs

/-- `_build_filter_condition` (lines 224-256): build the per-row boolean
condition for one rule.  The condition is a predicate over a row. -/
def buildFilterCondition (df : DataFrame) (column : String)
    (operation : String) (values : Values) :
    Except PyErr (List Int → Bool) :=
  if operation = "==" then do
    let i ← colIndexE df column
    let v ← asScalar values
    .ok (fun row => row.getD i 0 == v)
  else if operation = ">" then do
    let i ← colIndexE df column
    let v ← asScalar values
    .ok (fun row => v < row.getD i 0)
  else if operation = ">=" then do
    let i ← colIndexE df column
    let v ← asScalar values
    .ok (fun row => v ≤ row.getD i 0)
  else if operation = "<" then do
    let i ← colIndexE df column
    let v ← asScalar values
    .ok (fun row => row.getD i 0 < v)
  else if operation = "<=" then do
    let i ← colIndexE df column
    let v ← asScalar values
    .ok (fun row => row.getD i 0 ≤ v)
  else if operation = "!=" then do
    let i ← colIndexE df column
    let v ← asScalar values
    .ok (fun row => row.getD i 0 != v)
  else if operation = "in" then do
    let i ← colIndexE df column
    .ok (fun row => (asList values).contains (row.getD i 0))
  else if operation = "notin" then do
    let i ← colIndexE df column
    .ok (fun row => !(asList values).contains (row.getD i 0))
  else .error (.filterConfigurationError ("Unsupported operation: " ++ operation))

/-- The loop body of `apply_filters` (lines 189-216): validate each rule
(operation first, then the list/scalar shape), build its condition, and
fold it onto the accumulated query with the rule's logical operator.  An
`operator` that is neither `'and'` nor `'or'` leaves the query unchanged —
the condition is silently dropped (no `else` at lines 213-216). -/
def applyFiltersLoop (df : DataFrame) (dfName : String) :
    List FilterRule → (List Int → Bool) → Except PyErr (List Int → Bool)
  | [], query => .ok query
  | rule :: rest, query =>
    if rule.operation ∉ availableOperations then
      .error (.filterConfigurationError (badOperationMsg rule.operation))
    else if rule.operation ∉ (["notin", "in"] : List String) ∧ rule.values.isList = true then
      .error (.filterConfigurationError (listValuesMsg dfName))
    else
      match buildFilterCondition df rule.column rule.operation rule.values with
      | .error e => .error e
      | .ok cond =>
        applyFiltersLoop df dfName rest
          (let op := rule.operator.getD "and"
           if op = "and" then fun row => query row && cond row
           else if op = "or" then fun row => query row || cond row
           else query)

/-- `apply_filters` (lines 175-221): start from `pl.lit(True)`, fold every
rule, and filter the table.  The whole body sits in a `try` whose handler
re-raises any exception wrapped as a `FilterConfigurationError` naming the
table (line 221). -/
def applyFilters (df : DataFrame) (filters : List FilterRule)
    (dfName : String) : Except PyErr DataFrame :=
  match applyFiltersLoop df dfName filters (fun _ => true) with
  | .ok query => .ok { df with rows := df.rows.filter query }
  | .error e => .error (.filterConfigurationError (filterWrapMsg dfName e.msg))

/-- `True` exactly when a call raised `FilterConfigurationError`. -/
def isFilterConfigError : Except PyErr DataFrame → Bool
  | .error (.filterConfigurationError _) => true
  | _ => false

/-! ### The Parallel Loader and Grouping Merger
(`_read_file`, `_read_files_parallel`) -/

/-- `self.data_formats` (lines 86-91), over the four externally supplied
decoding capabilities. -/
def dataFormats (cd jd pd xd : DecodeCap) : List (String × DecodeCap) :=
  [(".csv", cd), (".json", jd), (".parquet", pd), (".xlsx", xd)]

/-- `_read_file` (lines 332-357): derive the extension, resolve the decoder
(`self.data_formats.get(ext)`), raise `UnsupportedFormatError` on a lookup
miss, otherwise decode and return the (logical name, table) pair.  A file
is its logical name plus its content. -/
def readFile (fmts : List (String × DecodeCap)) (file : String × Bytes) :
    Except PyErr (String × DataFrame) :=
  let ext := extOf file.1
  match fmts.lookup ext with
  | none => .error (.unsupportedFormatError ("Unsupported file format: " ++ ext))
  | some dec => do
    let df ← dec file.2
    pure (file.1, df)

/-- Python `dict` assignment `m[key] = v`: replace in place when the key is
present, append otherwise. -/
def dictSet (m : List (String × DataFrame)) (key : String) (v : DataFrame) :
    List (String × DataFrame) :=
  if m.any (fun p => p.1 == key) then
    m.map (fun p => if p.1 == key then (key, v) else p)
  else m ++ [(key, v)]

/-- `pl.concat([old, new])` (line 326): row-wise append.  Column alignment
is, per the spec, a decode-capability concern and is not checked here. -/
def concatDF (a b : DataFrame) : DataFrame :=
  { cols := a.cols, rows := a.rows ++ b.rows }

/-- The fan-in of `_read_files_parallel` (lines 317-330): fold the decoded
`(file_name, df)` pairs into a dict.  The key is `df_` + the stem,
normalized by the suffix-stripping `re.sub` when `join_similar`; a key
collision concatenates under `join_similar` and overwrites otherwise. -/
def buildDataframes (joinSimilar : Bool)
    (results : List (String × DataFrame)) : List (String × DataFrame) :=
  results.foldl
    (fun m fr =>
      let baseName := stemOf fr.1
      let baseName := if joinSimilar then stripSuffixGroups baseName else baseName
      let key := "df_" ++ baseName
      match m.lookup key, joinSimilar with
      | some old, true => dictSet m key (concatDF old fr.2)
      | _, _ => dictSet m key fr.2)
    []

/-- `_read_files_parallel` (lines 301-330).  `executor.map` yields the
decode results in submission order and re-raises the first exception
encountered when they are iterated, which is exactly `mapM` over `Except`;
scheduling of the worker threads cannot reorder the fold. -/
def readFilesParallel (fmts : List (String × DecodeCap))
    (files : List (String × Bytes)) (joinSimilar : Bool) :
    Except PyErr (List (String × DataFrame)) := do
  let results ← files.mapM (readFile fmts)
  pure (buildDataframes joinSimilar results)

/-! ### The Source Enumerator
(`_read_from_directory`, `_read_from_zip`) -/

/-- `_read_from_directory` (lines 258-273): direct children that are
regular files, each joined to the directory path and paired with its
content. -/
def readFromDirectory (fs : FS) (fmts : List (String × DecodeCap))
    (directoryPath : String) (joinSimilar : Bool) :
    Except PyErr (List (String × DataFrame)) :=
  let files :=
    ((fs.listDir directoryPath).map (fun f => directoryPath ++ "/" ++ f)).filter
      fs.isFile
  readFilesParallel fmts (files.map (fun p => (p, fs.fileBytes p))) joinSimilar

/-- The string branch of `_read_from_zip` (lines 288-291):
`zipfile.ZipFile(zip_source, 'r')` opens the archive stored at the path —
i.e. parses the bytes the filesystem holds there — and every entry becomes
a readable handle. -/
def readFromZipStr (fs : FS) (pz : ZipParse)
    (fmts : List (String × DecodeCap)) (zipSource : String)
    (joinSimilar : Bool) : Except PyErr (List (String × DataFrame)) := do
  let entries ← pz (fs.fileBytes zipSource)
  readFilesParallel fmts entries joinSimilar

/-- The bytes branch of `_read_from_zip` (lines 292-295):
`zipfile.ZipFile(io.BytesIO(zip_source), 'r')` parses the given buffer
directly.  (The function's final `else` branch is unreachable from
`read_data`, which only passes `str` or `bytes`.) -/
def readFromZipBytes (pz : ZipParse) (fmts : List (String × DecodeCap))
    (zipSource : Bytes) (joinSimilar : Bool) :
    Except PyErr (List (String × DataFrame)) := do
  let entries ← pz zipSource
  readFilesParallel fmts entries joinSimilar

/-! ### Dedup pass, filter pass and the orchestrator (`read_data`) -/

/-- `data[key]`: the lookup raises `KeyError` when the key is absent. -/
def dictGetE (data : List (String × DataFrame)) (key : String) :
    Except PyErr DataFrame :=
  match data.lookup key with
  | some df => .ok df
  | none => .error (.keyError key)

/-- First-occurrence deduplication of the rows, keyed by `key`. -/
def dedupFirstAux (key : List Int → List Int) (seen : List (List Int)) :
    List (List Int) → List (List Int)
  | [] => []
  | r :: rest =>
    if seen.contains (key r) then dedupFirstAux key seen rest
    else r :: dedupFirstAux key (key r :: seen) rest

/-- The projection of a row onto a column subset. -/
def projectRow (df : DataFrame) (subset : List String) (row : List Int) :
    List Int :=
  (subset.filterMap (fun c => df.cols.findIdx? (fun x => x == c))).map
    (fun i => row.getD i 0)

/-- `df.unique(subset=v if v else None, keep='first')` (line 152): keep the
first occurrence per unique combination of the subset columns, or of all
columns when the subset is `None`. -/
def uniqueDF (df : DataFrame) (subset : Option (List String)) : DataFrame :=
  let key : List Int → List Int :=
    match subset with
    | none => fun row => row
    | some s => projectRow df s
  { df with rows := dedupFirstAux key [] df.rows }

/-- The deduplication dict comprehension of `read_data` (lines 151-155):
the result is keyed by the entries of `duplicated_subset_dict` alone; for
each entry, if `df_{k}` is a key of `data` its table is deduplicated, else
the comprehension's `else` arm evaluates `data[f'df_{k}']` — a guaranteed
`KeyError`. -/
def dedupPass (data : List (String × DataFrame))
    (d : List (String × List String)) :
    Except PyErr (List (String × DataFrame)) :=
  d.mapM (fun kv => do
    let key := "df_" ++ kv.1
    let df ←
      if data.any (fun p => p.1 == key) then
        (dictGetE data key).map
          (fun t => uniqueDF t (if kv.2.isEmpty then none else some kv.2))
      else dictGetE data key
    pure (key, df))

/-- The filtering dict comprehension of `read_data` (lines 163-167): same
shape as the dedup pass, with `apply_filters` in place of `unique`. -/
def filterPass (data : List (String × DataFrame))
    (d : List (String × List FilterRule)) :
    Except PyErr (List (String × DataFrame)) :=
  d.mapM (fun kv => do
    let key := "df_" ++ kv.1
    let df ←
      if data.any (fun p => p.1 == key) then do
        let t ← dictGetE data key
        applyFilters t kv.2 key
      else dictGetE data key
    pure (key, df))

/-- `read_data` (lines 117-173): classify the source (directory path, file
path or bytes → zip, else `ValueError("Unsupported source type")`), load,
then run the optional dedup and filter passes (`if duplicated_subset_dict:`
and `if filter_subset:` are Python truthiness tests, so `None` and an empty
dict both skip the pass). -/
def readData (fs : FS) (pz : ZipParse) (fmts : List (String × DecodeCap))
    (source : Source) (joinSimilar : Bool)
    (duplicatedSubsetDict : Option (List (String × List String)))
    (filterSubset : Option (List (String × List FilterRule))) :
    Except PyErr (List (String × DataFrame)) := do
  let data ←
    match source with
    | .str s =>
      if fs.isDir s then readFromDirectory fs fmts s joinSimilar
      else if fs.isFile s then readFromZipStr fs pz fmts s joinSimilar
      else .error (.valueError "Unsupported source type")
    | .bytes b => readFromZipBytes pz fmts b joinSimilar
    | .other => .error (.valueError "Unsupported source type")
  let data ←
    match duplicatedSubsetDict with
    | some d => if d.isEmpty then pure data else dedupPass data d
    | none => pure data
  match filterSubset with
  | some d => if d.isEmpty then pure data else filterPass data d
  | none => pure data

/-- `True` exactly when a pipeline call raised the spec's
`UnsupportedSourceError`. -/
def raisedUnsupportedSource :
    Except PyErr (List (String × DataFrame)) → Bool
  | .error (.unsupportedSourceError _) => true
  | _ => false

/-! ### Concrete instances used by the claims -/

/-- A zip-parsing capability for scenarios in which no archive is read. -/
def pzUnused : ZipParse := fun _ => .error (.valueError "BadZipFile")

/-- A filesystem with no directories and no files. -/
def fsNone : FS :=
  { isDir := fun _ => false
    isFile := fun _ => false
    listDir := fun _ => []
    fileBytes := fun _ => [] }

/-- A decoding capability producing `t1` for content `[1]` and `t2` for
anything else. -/
def decTwo (t1 t2 : DataFrame) : DecodeCap :=
  fun b => if b = [1] then .ok t1 else .ok t2

def salesFileA : String := "sales_2023-01-01 00:00:00.csv"

def salesFileB : String := "sales_2023-02-01 00:00:00.csv"

/-- A directory `/sales` holding the two time-sliced sales files. -/
def fsSales : FS :=
  { isDir := fun s => s == "/sales"
    isFile := fun s =>
      s == "/sales/" ++ salesFileA || s == "/sales/" ++ salesFileB
    listDir := fun s => if s == "/sales" then [salesFileA, salesFileB] else []
    fileBytes := fun s => if s == "/sales/" ++ salesFileA then [1] else [2] }

def dfIdA : DataFrame := ⟨["id"], [[1], [2]]⟩

def dfIdB : DataFrame := ⟨["id"], [[3]]⟩

/-- A directory `/data` holding `a.csv` (content `[1]`) and `b.csv`
(content `[2]`). -/
def fsAB : FS :=
  { isDir := fun s => s == "/data"
    isFile := fun s => s == "/data/a.csv" || s == "/data/b.csv"
    listDir := fun s => if s == "/data" then ["a.csv", "b.csv"] else []
    fileBytes := fun s => if s == "/data/a.csv" then [1] else [2] }

/-- An archive (bytes `[9]`) holding entries `a.csv` and `a.json`. -/
def pzA : ZipParse :=
  fun b =>
    if b = [9] then .ok [("a.csv", [1]), ("a.json", [2])]
    else .error (.valueError "BadZipFile")

/-- The same archive with its entry listing reversed. -/
def pzArev : ZipParse :=
  fun b =>
    if b = [9] then .ok [("a.json", [2]), ("a.csv", [1])]
    else .error (.valueError "BadZipFile")

def fourExts : List String := [".csv", ".json", ".parquet", ".xlsx"]

/-- A decoding capability returning an empty table for any content. -/
def dOk : DecodeCap := fun _ => .ok ⟨[], []⟩

/-! ### Claims C1 – C4 -/

/-- C1, counterexample.  The claim asserts that with `join_similar=true`
the two files `sales_2023-01-01 00:00:00.csv` / `sales_2023-02-01
00:00:00.csv` collapse to the single key `df_sales`.  In fact the first
regex alternative `_(\d+)` strips only `_2023`, so the two stems normalize
to `sales-01-01 00:00:00` and `sales-02-01 00:00:00` — two distinct keys,
neither of which is `df_sales`. -/
theorem c1_counterexample :
    (readData fsSales pzUnused [(".csv", decTwo dfIdA dfIdB)] (.str "/sales")
        true none none).map (fun m => m.map Prod.fst)
      = .ok ["df_sales-01-01 00:00:00", "df_sales-02-01 00:00:00"]
    ∧ (["df_sales-01-01 00:00:00", "df_sales-02-01 00:00:00"] : List String)
        ≠ ["df_sales"] :=
  ⟨rfl, by decide⟩

/-- C1, amended.  For every pair of tables decoded from
`sales_2023-01-01 00:00:00.csv` and `sales_2023-02-01 00:00:00.csv` in a
directory source: with `join_similar=true`, `read_data` returns the two
distinct keys `df_sales-01-01 00:00:00` and `df_sales-02-01 00:00:00`
(suffix stripping removes only the leading digit run `_2023`, so no merge
occurs and each table keeps its own row count); with `join_similar=false`
it returns the two distinct keys carrying the unnormalized stems. -/
theorem c1_amended (t1 t2 : DataFrame) :
    readData fsSales pzUnused [(".csv", decTwo t1 t2)] (.str "/sales")
        true none none
      = .ok [("df_sales-01-01 00:00:00", t1), ("df_sales-02-01 00:00:00", t2)]
    ∧ readData fsSales pzUnused [(".csv", decTwo t1 t2)] (.str "/sales")
        false none none
      = .ok [("df_sales_2023-01-01 00:00:00", t1),
             ("df_sales_2023-02-01 00:00:00", t2)] :=
  ⟨rfl, rfl⟩

/-- C2, code bug.  The claim (and the spec) say tables not named by
`duplicated_subset_dict` / `filter_subset` pass through unchanged and that
an entry naming a missing table leaves the call unaffected.  The dict
comprehensions at lines 151-155 and 163-167 instead rebuild `data` from
the dict's entries alone — dropping `df_b` below — and their `else` arm
evaluates `data[f'df_{k}']` for a key just tested to be absent, a
guaranteed `KeyError`: with entry `c`, the call aborts with
`KeyError('df_c')` in both passes. -/
theorem c2_code_bug :
    readData fsAB pzUnused [(".csv", decTwo dfIdA dfIdB)] (.str "/data")
        false (some [("a", [])]) none
      = .ok [("df_a", dfIdA)]
    ∧ readData fsAB pzUnused [(".csv", decTwo dfIdA dfIdB)] (.str "/data")
        false (some [("c", [])]) none
      = .error (.keyError "df_c")
    ∧ readData fsAB pzUnused [(".csv", decTwo dfIdA dfIdB)] (.str "/data")
        false none (some [("c", [])])
      = .error (.keyError "df_c") :=
  ⟨rfl, rfl, rfl⟩

/-- C3, counterexample.  A source that is neither an existing directory,
nor an existing file, nor bytes makes `read_data` raise the built-in
`ValueError("Unsupported source type")` — the class `UnsupportedSourceError`
named by the claim is defined nowhere in the code and is never raised. -/
theorem c3_counterexample :
    readData fsNone pzUnused [] Source.other false none none
      = .error (.valueError "Unsupported source type")
    ∧ raisedUnsupportedSource
        (readData fsNone pzUnused [] Source.other false none none) = false :=
  ⟨rfl, rfl⟩

/-- C3, amended.  For every source that is neither an existing directory
path, nor an existing file path, nor a byte buffer, `read_data` raises
`ValueError("Unsupported source type")` immediately: the result is this
error for every filesystem listing, zip capability, decoder registry and
dedup/filter configuration, so no enumeration or loading is consulted. -/
theorem c3_amended (fs : FS) (pz : ZipParse) (fmts : List (String × DecodeCap))
    (s : String) (joinSimilar : Bool)
    (dd : Option (List (String × List String)))
    (fsub : Option (List (String × List FilterRule)))
    (hdir : fs.isDir s = false) (hfile : fs.isFile s = false) :
    readData fs pz fmts (.str s) joinSimilar dd fsub
      = .error (.valueError "Unsupported source type")
    ∧ readData fs pz fmts .other joinSimilar dd fsub
      = .error (.valueError "Unsupported source type") := by
  constructor
  · simp only [readData, hdir, hfile, Bool.false_eq_true, if_false]
    rfl
  · rfl

/-- C3, witness for the amended theorem. -/
theorem c3_amended_witness :
    readData fsNone pzUnused [] (.str "/nope") false none none
      = .error (.valueError "Unsupported source type")
    ∧ readData fsNone pzUnused [] .other false none none
      = .error (.valueError "Unsupported source type") :=
  c3_amended fsNone pzUnused [] "/nope" false none none rfl rfl

/-- C4, counterexample.  The entries `a.csv` and `a.json` share the stem
`a`, so both map to the key `df_a`: the collection has one key, not two. -/
theorem c4_counterexample :
    (readData fsNone pzA [(".csv", decTwo dfIdA dfIdB), (".json", decTwo dfIdA dfIdB)]
        (.bytes [9]) false none none).map (fun m => m.map Prod.fst)
      = .ok ["df_a"]
    ∧ (["df_a"] : List String).length ≠ 2 :=
  ⟨rfl, by decide⟩

/-- C4, amended.  For every pair of tables decoded from an archive holding
exactly `a.csv` and `a.json`, loading with merge mode off returns the
single key `df_a` mapped to the table of the entry appearing later in the
archive listing (the fan-in folds results in submission order, so the last
writer wins); reversing the listing selects the other table. -/
theorem c4_amended (t1 t2 : DataFrame) :
    readData fsNone pzA [(".csv", decTwo t1 t2), (".json", decTwo t1 t2)]
        (.bytes [9]) false none none
      = .ok [("df_a", t2)]
    ∧ readData fsNone pzArev [(".csv", decTwo t1 t2), (".json", decTwo t1 t2)]
        (.bytes [9]) false none none
      = .ok [("df_a", t1)] :=
  ⟨rfl, rfl⟩

/-! ### Claims C6, C7, C9 -/

/-- C6.  Filtering with zero rules is the identity: the fold starts from
the all-true mask, so `apply_filters` returns the table with every row. -/
theorem c6_zero_rules_identity (df : DataFrame) (dfName : String) :
    applyFilters df [] dfName = .ok df := by
  simp [applyFilters, applyFiltersLoop, List.filter_true]

/-- C7.  Reading an archive through its file path and reading the same
bytes as an in-memory buffer produce identical collections: both branches
of `_read_from_zip` enumerate the same entries and hand them to the same
parallel loader. -/
theorem c7_path_bytes_agree (fs : FS) (pz : ZipParse)
    (fmts : List (String × DecodeCap)) (path : String) (joinSimilar : Bool) :
    readFromZipStr fs pz fmts path joinSimilar
      = readFromZipBytes pz fmts (fs.fileBytes path) joinSimilar := rfl

/-- C9.  Resolving a file name's extension against the format registry
returns the registered decoder for `.csv`, `.json`, `.parquet`, `.xlsx`
(leading dot included, case-sensitively), and for every other extension
`_read_file` raises `UnsupportedFormatError` carrying the unresolved
extension. -/
theorem c9_format_registry (cd jd pd xd : DecodeCap) (name : String)
    (content : Bytes) :
    (extOf name = ".csv" →
      (dataFormats cd jd pd xd).lookup (extOf name) = some cd)
    ∧ (extOf name = ".json" →
      (dataFormats cd jd pd xd).lookup (extOf name) = some jd)
    ∧ (extOf name = ".parquet" →
      (dataFormats cd jd pd xd).lookup (extOf name) = some pd)
    ∧ (extOf name = ".xlsx" →
      (dataFormats cd jd pd xd).lookup (extOf name) = some xd)
    ∧ (extOf name ∉ fourExts →
      readFile (dataFormats cd jd pd xd) (name, content)
        = .error (.unsupportedFormatError
            ("Unsupported file format: " ++ extOf name))) := by
  refine ⟨fun h => ?_, fun h => ?_, fun h => ?_, fun h => ?_, fun h => ?_⟩
  · simp [dataFormats, List.lookup, h]
  · simp [dataFormats, List.lookup, h]
  · simp [dataFormats, List.lookup, h]
  · simp [dataFormats, List.lookup, h]
  · simp only [fourExts, List.mem_cons, List.not_mem_nil, or_false, not_or] at h
    obtain ⟨h1, h2, h3, h4⟩ := h
    have e1 : (extOf name == ".csv") = false := by simp [h1]
    have e2 : (extOf name == ".json") = false := by simp [h2]
    have e3 : (extOf name == ".parquet") = false := by simp [h3]
    have e4 : (extOf name == ".xlsx") = false := by simp [h4]
    simp [readFile, dataFormats, List.lookup, e1, e2, e3, e4]

/-- C9, witness: `.csv` resolves to the registered csv decoder, and `.txt`
is rejected with `UnsupportedFormatError`. -/
theorem c9_format_registry_witness :
    (dataFormats dOk dOk dOk dOk).lookup (extOf "a.csv") = some dOk
    ∧ readFile (dataFormats dOk dOk dOk dOk) ("b.txt", [])
      = .error (.unsupportedFormatError
          ("Unsupported file format: " ++ extOf "b.txt")) :=
  ⟨(c9_format_registry dOk dOk dOk dOk "a.csv" []).1 rfl,
   (c9_format_registry dOk dOk dOk dOk "b.txt" []).2.2.2.2 (by decide)⟩

/-! ### Validation machinery for the Filter Engine claims -/

/-- A rule that passes both validation checks of `apply_filters` and whose
condition builds without error: recognized operation, list values only for
membership operations, and a column present in the table. -/
def ruleOk (df : DataFrame) (r : FilterRule) : Bool :=
  (decide (r.operation ∈ availableOperations) &&
    (decide (r.operation ∈ (["notin", "in"] : List String)) || !r.values.isList)) &&
  decide (r.column ∈ df.cols)

lemma colIndexE_ok (df : DataFrame) (c : String) (h : c ∈ df.cols) :
    ∃ i, colIndexE df c = .ok i := by
  unfold colIndexE
  cases hf : df.cols.findIdx? (fun x => x == c) with
  | some i => exact ⟨i, rfl⟩
  | none =>
    rw [List.findIdx?_eq_none_iff] at hf
    have hc := hf c h
    simp at hc

lemma buildFilterCondition_ok (df : DataFrame) (r : FilterRule)
    (h : ruleOk df r = true) :
    ∃ cond, buildFilterCondition df r.column r.operation r.values = .ok cond := by
  unfold ruleOk at h
  simp only [Bool.and_eq_true, Bool.or_eq_true, decide_eq_true_eq,
    Bool.not_eq_true'] at h
  obtain ⟨⟨hop, hv⟩, hcol⟩ := h
  obtain ⟨i, hi⟩ := colIndexE_ok df r.column hcol
  simp only [availableOperations, List.mem_cons, List.not_mem_nil,
    or_false] at hop
  rcases hop with h | h | h | h | h | h | h | h
  · exact ⟨_, by simp [buildFilterCondition, h, hi]; rfl⟩
  · exact ⟨_, by simp [buildFilterCondition, h, hi]; rfl⟩
  all_goals {
    have hvs : r.values.isList = false := by
      rcases hv with hin | hl
      · rw [h] at hin; simp at hin
      · exact hl
    cases hval : r.values with
    | list vs => rw [hval] at hvs; simp [Values.isList] at hvs
    | scalar v =>
      exact ⟨_, by simp [buildFilterCondition, h, hi, hval, asScalar]; rfl⟩
  }

lemma rule_checks_pass (df : DataFrame) (r : FilterRule)
    (h : ruleOk df r = true) :
    ¬ r.operation ∉ availableOperations
    ∧ ¬ (r.operation ∉ (["notin", "in"] : List String) ∧ r.values.isList = true) := by
  unfold ruleOk at h
  simp only [Bool.and_eq_true, Bool.or_eq_true, decide_eq_true_eq,
    Bool.not_eq_true'] at h
  obtain ⟨⟨hop, hv⟩, _⟩ := h
  refine ⟨not_not_intro hop, ?_⟩
  rintro ⟨hnotmem, hlist⟩
  rcases hv with hmem | hfalse
  · exact hnotmem hmem
  · rw [hfalse] at hlist; cases hlist

/-- Processing one fully valid rule steps the loop to the rest with some
updated query. -/
lemma loop_cons_ok (df : DataFrame) (dfName : String) (r : FilterRule)
    (rest : List FilterRule) (q : List Int → Bool) (h : ruleOk df r = true) :
    ∃ q', applyFiltersLoop df dfName (r :: rest) q
      = applyFiltersLoop df dfName rest q' := by
  obtain ⟨hc1, hc2⟩ := rule_checks_pass df r h
  obtain ⟨cond, hcond⟩ := buildFilterCondition_ok df r h
  refine ⟨(let op := r.operator.getD "and"
           if op = "and" then fun row => q row && cond row
           else if op = "or" then fun row => q row || cond row
           else q), ?_⟩
  simp only [applyFiltersLoop]
  rw [if_neg hc1, if_neg hc2, hcond]

/-- A valid rule whose `operator` is neither `'and'` nor `'or'` leaves the
accumulated query untouched: its condition is dropped. -/
lemma loop_cons_dropped (df : DataFrame) (dfName : String) (r : FilterRule)
    (rest : List FilterRule) (q : List Int → Bool) (h : ruleOk df r = true)
    (h1 : r.operator.getD "and" ≠ "and") (h2 : r.operator.getD "and" ≠ "or") :
    applyFiltersLoop df dfName (r :: rest) q
      = applyFiltersLoop df dfName rest q := by
  obtain ⟨hc1, hc2⟩ := rule_checks_pass df r h
  obtain ⟨cond, hcond⟩ := buildFilterCondition_ok df r h
  simp only [applyFiltersLoop]
  rw [if_neg hc1, if_neg hc2, hcond]
  simp only [if_neg h1, if_neg h2]

/-- When every rule before `r` is fully valid and `r`'s operation is
unrecognized, the loop stops at `r` with the bad-operation error. -/
lemma applyFiltersLoop_badop (df : DataFrame) (dfName : String)
    (r : FilterRule) (post : List FilterRule)
    (hop : r.operation ∉ availableOperations) :
    ∀ (pre : List FilterRule), (∀ x ∈ pre, ruleOk df x = true) →
      ∀ q, applyFiltersLoop df dfName (pre ++ r :: post) q
        = .error (.filterConfigurationError (badOperationMsg r.operation)) := by
  intro pre
  induction pre with
  | nil =>
    intro _ q
    simp only [List.nil_append, applyFiltersLoop]
    rw [if_pos hop]
  | cons a t ih =>
    intro hpre q
    obtain ⟨q', hq'⟩ :=
      loop_cons_ok df dfName a (t ++ r :: post) q (hpre a (List.mem_cons_self a t))
    rw [List.cons_append, hq']
    exact ih (fun x hx => hpre x (List.mem_cons_of_mem a hx)) q'

/-- A rule with list values on a non-membership operation anywhere in the
list makes the loop end in an error (its own, or an earlier rule's). -/
lemma applyFiltersLoop_not_ok_of_mem (df : DataFrame) (dfName : String)
    (r : FilterRule) (hop : r.operation ∉ (["notin", "in"] : List String))
    (hlist : r.values.isList = true) :
    ∀ (rules : List FilterRule), r ∈ rules →
      ∀ q, (applyFiltersLoop df dfName rules q).isOk = false := by
  intro rules
  induction rules with
  | nil => intro h; cases h
  | cons a t ih =>
    intro hmem q
    simp only [applyFiltersLoop]
    by_cases hbad : a.operation ∉ availableOperations
    · rw [if_pos hbad]; rfl
    · rw [if_neg hbad]
      by_cases hl : a.operation ∉ (["notin", "in"] : List String) ∧ a.values.isList = true
      · rw [if_pos hl]; rfl
      · rw [if_neg hl]
        rcases List.mem_cons.mp hmem with rfl | hmemt
        · exact absurd ⟨hop, hlist⟩ hl
        · cases hcond : buildFilterCondition df a.column a.operation a.values with
          | error e => rfl
          | ok cond => exact ih hmemt _

/-! ### Claims C5, C8, C10 -/

def dfC5 : DataFrame := ⟨["c"], [[1]]⟩

def rulesC5 : List FilterRule :=
  [⟨"c", "==", .list [1], none⟩, ⟨"c", "~~", .scalar 0, none⟩]

/-- True when `pat` occurs as a contiguous subsequence. -/
def containsSeq (pat : List Char) : List Char → Bool
  | [] => pat.isEmpty
  | c :: rest => pat.isPrefixOf (c :: rest) || containsSeq pat rest

/-- C5, counterexample.  `rulesC5` contains a rule whose operation `~~` is
unrecognized, yet `apply_filters` raises the list-values error of the
earlier rule: the raised `FilterConfigurationError`'s message neither
equals the bad-operation message nor mentions `~~` at all.  Rule-by-rule
validation stops at the first offending rule, whichever kind it is. -/
theorem c5_counterexample :
    (⟨"c", "~~", .scalar 0, none⟩ : FilterRule) ∈ rulesC5
    ∧ "~~" ∉ availableOperations
    ∧ applyFilters dfC5 rulesC5 "df_t"
        = .error (.filterConfigurationError
            (filterWrapMsg "df_t" (listValuesMsg "df_t")))
    ∧ filterWrapMsg "df_t" (listValuesMsg "df_t")
        ≠ filterWrapMsg "df_t" (badOperationMsg "~~")
    ∧ containsSeq "~~".data (filterWrapMsg "df_t" (listValuesMsg "df_t")).data
        = false :=
  ⟨by decide, by decide, rfl, by decide, by decide⟩

/-- C5, amended.  For every table and rule list in which the first rule
failing validation is one with an unrecognized operation (every earlier
rule is fully valid), `apply_filters` raises `FilterConfigurationError`
whose message names the bad operator and the allowed set, and the table is
never filtered (the call returns the error instead of a table). -/
theorem c5_amended (df : DataFrame) (dfName : String)
    (pre post : List FilterRule) (r : FilterRule)
    (hpre : ∀ x ∈ pre, ruleOk df x = true)
    (hop : r.operation ∉ availableOperations) :
    applyFilters df (pre ++ r :: post) dfName
      = .error (.filterConfigurationError
          (filterWrapMsg dfName (badOperationMsg r.operation))) := by
  unfold applyFilters
  rw [applyFiltersLoop_badop df dfName r post hop pre hpre (fun _ => true)]
  rfl

/-- C5, witness for the amended theorem. -/
theorem c5_amended_witness :
    applyFilters dfC5 [⟨"c", "~~", .scalar 0, none⟩] "df_t"
      = .error (.filterConfigurationError
          (filterWrapMsg "df_t" (badOperationMsg "~~"))) :=
  c5_amended dfC5 "df_t" [] [] ⟨"c", "~~", .scalar 0, none⟩ (by simp) (by decide)

def dfW8 : DataFrame := ⟨["a"], [[1], [2]]⟩

def rW8 : FilterRule := ⟨"a", "==", .list [1], none⟩

/-- C8.  For every rule list containing a rule whose operation is not
`in`/`notin` but whose values are a list, `apply_filters` raises
`FilterConfigurationError` — the offending rule's condition is never
evaluated and the table is never filtered, since the call ends in an error
raised at or before that rule's validation. -/
theorem c8_list_values (df : DataFrame) (dfName : String)
    (rules : List FilterRule) (r : FilterRule) (hmem : r ∈ rules)
    (hop : r.operation ∉ (["notin", "in"] : List String))
    (hlist : r.values.isList = true) :
    isFilterConfigError (applyFilters df rules dfName) = true := by
  have h := applyFiltersLoop_not_ok_of_mem df dfName r hop hlist rules hmem
    (fun _ => true)
  unfold applyFilters
  cases hE : applyFiltersLoop df dfName rules (fun _ => true) with
  | ok query => rw [hE] at h; simp [Except.isOk, Except.toBool] at h
  | error e => rfl

/-- C8, witness. -/
theorem c8_list_values_witness :
    isFilterConfigError (applyFilters dfW8 [rW8] "df_t") = true :=
  c8_list_values dfW8 "df_t" [rW8] rW8 (by simp) (by decide) rfl

def rC10bad : FilterRule := ⟨"a", "~~", .scalar 0, some "xor"⟩

/-- C10, counterexample.  A rule whose `operator` is present but neither
`'and'` nor `'or'` is not always error-free: validation still applies, so
this rule with operator `xor` and unrecognized operation `~~` makes
`apply_filters` raise, where the claim says no error is raised. -/
theorem c10_counterexample :
    (rC10bad.operator.getD "and" ≠ "and" ∧ rC10bad.operator.getD "and" ≠ "or")
    ∧ applyFilters ⟨["a"], [[1]]⟩ [rC10bad] "df_t"
        = .error (.filterConfigurationError
            (filterWrapMsg "df_t" (badOperationMsg "~~"))) :=
  ⟨by decide, rfl⟩

/-- C10, amended.  For every rule that passes validation and whose column
exists, if its `operator` is present but neither `'and'` nor `'or'`, no
error arises from combining and its condition is silently dropped: the
result equals `apply_filters` on the list with the rule removed. -/
theorem c10_operator_dropped (df : DataFrame) (dfName : String)
    (pre post : List FilterRule) (r : FilterRule) (hok : ruleOk df r = true)
    (h1 : r.operator.getD "and" ≠ "and") (h2 : r.operator.getD "and" ≠ "or") :
    applyFilters df (pre ++ r :: post) dfName
      = applyFilters df (pre ++ post) dfName := by
  have hloop : ∀ (l : List FilterRule) (q : List Int → Bool),
      applyFiltersLoop df dfName (l ++ r :: post) q
        = applyFiltersLoop df dfName (l ++ post) q := by
    intro l
    induction l with
    | nil =>
      intro q
      simp only [List.nil_append]
      exact loop_cons_dropped df dfName r post q hok h1 h2
    | cons a t ih =>
      intro q
      simp only [List.cons_append, applyFiltersLoop]
      by_cases hbad : a.operation ∉ availableOperations
      · rw [if_pos hbad, if_pos hbad]
      · rw [if_neg hbad, if_neg hbad]
        by_cases hl : a.operation ∉ (["notin", "in"] : List String)
            ∧ a.values.isList = true
        · rw [if_pos hl, if_pos hl]
        · rw [if_neg hl, if_neg hl]
          cases hcond : buildFilterCondition df a.column a.operation a.values with
          | error e => rfl
          | ok cond => exact ih _
  unfold applyFilters
  rw [hloop pre (fun _ => true)]

/-- C10, witness for the amended theorem. -/
theorem c10_operator_dropped_witness :
    applyFilters ⟨["a"], [[1], [2]]⟩ [⟨"a", "==", .scalar 1, some "xor"⟩] "df_t"
      = applyFilters ⟨["a"], [[1], [2]]⟩ [] "df_t" :=
  c10_operator_dropped ⟨["a"], [[1], [2]]⟩ "df_t" [] []
    ⟨"a", "==", .scalar 1, some "xor"⟩ (by decide) (by decide) (by decide)

/-! ### Sanity checks of the embedding on the spec's worked examples -/

example :
    readData fsAB pzUnused [(".csv", decTwo dfIdA dfIdB)] (.str "/data")
      false none none = .ok [("df_a", dfIdA), ("df_b", dfIdB)] := rfl

example : stripSuffixGroups "sales_2023-01-01 00:00:00" = "sales-01-01 00:00:00" := rfl
example : stripSuffixGroups "x_12_3" = "x" := rfl
example : stripSuffixGroups "a__12" = "a_" := rfl
example : extOf "/d/a.csv" = ".csv" := rfl
example : extOf ".bashrc" = "" := rfl
example : extOf "a.." = "." := rfl
example : stemOf "/sales/sales_2023-01-01 00:00:00.csv" = "sales_2023-01-01 00:00:00" := rfl
example :
    applyFilters ⟨["age"], [[10], [18], [64], [65], [70]]⟩
      [⟨"age", ">=", .scalar 18, some "and"⟩, ⟨"age", "<", .scalar 65, some "and"⟩] "df_t"
      = .ok ⟨["age"], [[18], [64]]⟩ := rfl
example :
    uniqueDF ⟨["id", "x"], [[1, 5], [1, 6], [2, 7]]⟩ (some ["id"])
      = ⟨["id", "x"], [[1, 5], [2, 7]]⟩ := rfl
